import Mathlib

/-!
Verification of the scroll-animation core of the `sitecurriculo` portfolio
site: the progress-to-visual piecewise-linear mappings of
`hooks/useScrollProgress.ts` and `components/WaveTransition.tsx`, the
procedural skyline generator of `utils/buildingGenerator.ts`, and the theme
logic of `hooks/useTheme.ts`.

Scroll progress values are embedded as rationals (the source works with JS
doubles, but every breakpoint and value is a short decimal, so exact rational
arithmetic models the intended curves).
-/

namespace SiteCurriculo

/-- Piecewise-linear interpolation over an ordered `(breakpoint, value)`
table, the mapping framer-motion `useTransform(progress, inputs, outputs)`
applies to a motion value (spec 4.1: standard linear interpolation between
consecutive breakpoints, clamped flat to the first/last value outside the
defined range). -/
def piecewiseLinear : List (ℚ × ℚ) → ℚ → ℚ
  | [], _ => 0
  | [p], _ => p.2
  | p :: q :: rest, f =>
    if f ≤ p.1 then p.2
    else if f ≤ q.1 then p.2 + (q.2 - p.2) * (f - p.1) / (q.1 - p.1)
    else piecewiseLinear (q :: rest) f

/-- Opacity of section 1 (`sceneOpacity1` in `useScrollProgress.ts`):
`useTransform(smoothProgress, [0, 0.15, 0.25], [1, 1, 0])`. -/
def sceneOpacity1 (f : ℚ) : ℚ :=
  piecewiseLinear [(0, 1), (3/20, 1), (1/4, 0)] f

/-- Opacity of section 3 (`sceneOpacity3` in `useScrollProgress.ts`):
`useTransform(smoothProgress, [0.45, 0.55, 0.6, 0.65], [0, 1, 1, 0])`. -/
def sceneOpacity3 (f : ℚ) : ℚ :=
  piecewiseLinear [(9/20, 0), (11/20, 1), (3/5, 1), (13/20, 0)] f

/-- The CSS value `'auto'`. -/
def autoStr : String := "auto"

/-- The CSS value `'none'`. -/
def noneStr : String := "none"

/-- Pointer-events control of section 3 (`scene3PointerEvents` in
`useScrollProgress.ts`): `useTransform(sceneOpacity3, v => v > 0.1 ? 'auto' :
'none')`, expressed as a function of the smoothed progress. -/
def scene3PointerEvents (f : ℚ) : String :=
  if sceneOpacity3 f > 1/10 then autoStr else noneStr

/-- Opacity of section 4 (`sceneOpacity4` in `useScrollProgress.ts`):
`useTransform(smoothProgress, [0.65, 0.75], [0, 1])`. -/
def sceneOpacity4 (f : ℚ) : ℚ :=
  piecewiseLinear [(13/20, 0), (3/4, 1)] f

/-- Vertical shift of section 1 (`scene1TranslateY` in
`useScrollProgress.ts`): `useTransform(smoothProgress, [0, 0.25], [0, -100])`
(pixels). -/
def scene1TranslateY (f : ℚ) : ℚ :=
  piecewiseLinear [(0, 0), (1/4, -100)] f

/-- Vertical position of the wave (`waveY` in the body of
`components/WaveTransition.tsx`): `useTransform(progress, [0.2, 0.3, 0.35,
0.45], ["100vh", "0vh", "0vh", "-118vh"])`, in `vh` units. -/
def waveY (f : ℚ) : ℚ :=
  piecewiseLinear [(1/5, 100), (3/10, 0), (7/20, 0), (9/20, -118)] f

/-- Vertical position of the wave in the alternative copy of the component
appended in `components/WaveTransition.tsx` (its `waveY` uses
`["100vh", "0vh", "0vh", "-120vh"]` over the same breakpoints). -/
def waveYAlt (f : ℚ) : ℚ :=
  piecewiseLinear [(1/5, 100), (3/10, 0), (7/20, 0), (9/20, -120)] f

/-- Closed form of the section-1 opacity curve. -/
lemma sceneOpacity1_eq (f : ℚ) :
    sceneOpacity1 f =
      if f ≤ 3/20 then 1 else if f ≤ 1/4 then 5/2 - 10 * f else 0 := by
  simp only [sceneOpacity1, piecewiseLinear]
  split_ifs <;> first | linarith | ring_nf

/-- Closed form of the section-3 opacity curve. -/
lemma sceneOpacity3_eq (f : ℚ) :
    sceneOpacity3 f =
      if f ≤ 9/20 then 0
      else if f ≤ 11/20 then 10 * f - 9/2
      else if f ≤ 3/5 then 1
      else if f ≤ 13/20 then 13 - 20 * f
      else 0 := by
  simp only [sceneOpacity3, piecewiseLinear]
  split_ifs <;> first | linarith | ring_nf

/-- Closed form of the section-4 opacity curve. -/
lemma sceneOpacity4_eq (f : ℚ) :
    sceneOpacity4 f =
      if f ≤ 13/20 then 0 else if f ≤ 3/4 then 10 * f - 13/2 else 1 := by
  simp only [sceneOpacity4, piecewiseLinear]
  split_ifs <;> first | linarith | ring_nf

/-- Closed form of the section-1 translation curve. -/
lemma scene1TranslateY_eq (f : ℚ) :
    scene1TranslateY f =
      if f ≤ 0 then 0 else if f ≤ 1/4 then -400 * f else -100 := by
  simp only [scene1TranslateY, piecewiseLinear]
  split_ifs <;> first | linarith | ring_nf

/-- Closed form of the wave position curve. -/
lemma waveY_eq (f : ℚ) :
    waveY f =
      if f ≤ 1/5 then 100
      else if f ≤ 3/10 then 300 - 1000 * f
      else if f ≤ 7/20 then 0
      else if f ≤ 9/20 then 413 - 1180 * f
      else -118 := by
  simp only [waveY, piecewiseLinear]
  split_ifs <;> first | linarith | ring_nf

/-- Closed form of the wave position curve of the appended variant. -/
lemma waveYAlt_eq (f : ℚ) :
    waveYAlt f =
      if f ≤ 1/5 then 100
      else if f ≤ 3/10 then 300 - 1000 * f
      else if f ≤ 7/20 then 0
      else if f ≤ 9/20 then 420 - 1200 * f
      else -120 := by
  simp only [waveYAlt, piecewiseLinear]
  split_ifs <;> first | linarith | ring_nf

/-- A window of a building (`BuildingWindow` in `utils/buildingGenerator.ts`). -/
structure BuildingWindow where
  id : ℕ
  isYellow : Bool
  opacity : ℚ
  deriving Repr, DecidableEq

/-- A skyline building (`Building` in `utils/buildingGenerator.ts`). -/
structure Building where
  id : ℕ
  height : ℚ
  windows : List BuildingWindow
  hasAntenna : Bool
  deriving Repr, DecidableEq

/-- One window (`generateWindow` in `utils/buildingGenerator.ts`). The source
draws `Math.random()` twice, first for `isYellow` (`> 0.8`) and then for
`opacity`; here `u` is the stream of successive `Math.random()` results and
`p` the position of the next unconsumed draw, so the call consumes `u p` and
`u (p+1)`. -/
def generateWindow (u : ℕ → ℚ) (p : ℕ) (id : ℕ) : BuildingWindow :=
  { id := id, isYellow := decide (u p > 4/5), opacity := u (p + 1) }

/-- Windows `idx, idx+1, ...` of a building, consuming two draws each
(`Array.from({length: count}, (_, index) => generateWindow(index))` in
`generateWindows`). -/
def generateWindowsFrom (u : ℕ → ℚ) : ℕ → ℕ → ℕ → List BuildingWindow
  | _, _, 0 => []
  | p, idx, n + 1 =>
    generateWindow u p idx :: generateWindowsFrom u (p + 2) (idx + 1) n

/-- All windows of a building (`generateWindows` in
`utils/buildingGenerator.ts`). -/
def generateWindows (u : ℕ → ℚ) (p : ℕ) (count : ℕ) : List BuildingWindow :=
  generateWindowsFrom u p 0 count

/-- One building (`generateBuilding` in `utils/buildingGenerator.ts`). In
source evaluation order the draws are: one for `height`
(`20 + Math.random() * 60`), two per window, and a final one for `hasAntenna`
(`Math.random() > 0.6`); the call consumes `2 * windowCount + 2` draws
starting at `p`. -/
def generateBuilding (u : ℕ → ℚ) (p : ℕ) (id : ℕ) (windowCount : ℕ) :
    Building :=
  { id := id
    height := 20 + u p * 60
    windows := generateWindows u (p + 1) windowCount
    hasAntenna := decide (u (p + 1 + 2 * windowCount) > 3/5) }

/-- Buildings `idx, idx+1, ...`, each consuming `2 * windowCount + 2` draws
(`Array.from({length: buildingCount}, (_, index) => generateBuilding(index,
windowsPerBuilding))` in `generateBuildings`). -/
def generateBuildingsFrom (u : ℕ → ℚ) (windowCount : ℕ) :
    ℕ → ℕ → ℕ → List Building
  | _, _, 0 => []
  | p, idx, n + 1 =>
    generateBuilding u p idx windowCount ::
      generateBuildingsFrom u windowCount (p + 2 + 2 * windowCount) (idx + 1) n

/-- The skyline (`generateBuildings` in `utils/buildingGenerator.ts`). -/
def generateBuildings (u : ℕ → ℚ) (buildingCount windowsPerBuilding : ℕ) :
    List Building :=
  generateBuildingsFrom u windowsPerBuilding 0 0 buildingCount

/-- The string `'light'`. -/
def lightStr : String := "light"

/-- The string `'dark'`. -/
def darkStr : String := "dark"

/-- The theme (`Theme` in `hooks/useTheme.ts`). -/
inductive Theme where
  | light : Theme
  | dark : Theme
  deriving Repr, DecidableEq

/-- String rendering of a theme, as stored in `localStorage`. -/
def themeToString : Theme → String
  | Theme.light => lightStr
  | Theme.dark => darkStr

/-- The `localStorage` key `'theme'`. -/
def themeKey : String := "theme"

/-- A key-value storage, the model of `localStorage`. -/
def Storage : Type := String → Option String

/-- Model of `localStorage.getItem`. -/
def getItem (key : String) (st : Storage) : Option String := st key

/-- Model of `localStorage.setItem`. -/
def setItem (key value : String) (st : Storage) : Storage :=
  fun k => if k = key then some value else st k

/-- Initial theme resolution (`getInitialTheme` in `hooks/useTheme.ts`):
outside a browser `'light'`; else the saved `localStorage` value when it is
`'light'` or `'dark'`; else the system preference
(`prefers-color-scheme: dark`); else `'light'`. -/
def getInitialTheme (hasWindow : Bool) (saved : Option String)
    (prefersDark : Bool) : Theme :=
  if hasWindow = false then Theme.light
  else if saved = some lightStr ∨ saved = some darkStr then
    (if saved = some darkStr then Theme.dark else Theme.light)
  else if prefersDark then Theme.dark else Theme.light

/-- The theme effect (`useEffect` body in `hooks/useTheme.ts`): on every theme
change the new value is written back to `localStorage` under the key
`'theme'` (the `data-theme` DOM attribute update is presentation glue and not
modelled). -/
def themeEffect (t : Theme) (st : Storage) : Storage :=
  setItem themeKey (themeToString t) st

/-- Theme toggle (`toggleTheme` in `hooks/useTheme.ts`):
`prevTheme === 'light' ? 'dark' : 'light'`. -/
def toggleTheme (t : Theme) : Theme :=
  if t = Theme.light then Theme.dark else Theme.light

lemma generateWindowsFrom_length (u : ℕ → ℚ) :
    ∀ (n p idx : ℕ), (generateWindowsFrom u p idx n).length = n := by
  intro n
  induction n with
  | zero => intro p idx; rfl
  | succ n ih => intro p idx; simp [generateWindowsFrom, ih]

lemma generateWindows_length (u : ℕ → ℚ) (p count : ℕ) :
    (generateWindows u p count).length = count :=
  generateWindowsFrom_length u count p 0

/-- Every window produced by the generator has its `isYellow` flag decided by
one uniform draw (`> 0.8`) and its opacity equal to the following draw. -/
lemma mem_generateWindowsFrom_draws (u : ℕ → ℚ) :
    ∀ (n p idx : ℕ) (w : BuildingWindow), w ∈ generateWindowsFrom u p idx n →
      ∃ k, w.isYellow = decide (u k > 4/5) ∧ w.opacity = u (k + 1) := by
  intro n
  induction n with
  | zero => intro p idx w h; simp [generateWindowsFrom] at h
  | succ n ih =>
    intro p idx w h
    simp only [generateWindowsFrom, List.mem_cons] at h
    rcases h with h | h
    · exact ⟨p, by simp [h, generateWindow]⟩
    · exact ih (p + 2) (idx + 1) w h

lemma generateBuildingsFrom_length (u : ℕ → ℚ) (wc : ℕ) :
    ∀ (n p idx : ℕ), (generateBuildingsFrom u wc p idx n).length = n := by
  intro n
  induction n with
  | zero => intro p idx; rfl
  | succ n ih => intro p idx; simp [generateBuildingsFrom, ih]

/-- The ids of the generated buildings are consecutive starting at `idx`. -/
lemma generateBuildingsFrom_map_id (u : ℕ → ℚ) (wc : ℕ) :
    ∀ (n p idx : ℕ),
      (generateBuildingsFrom u wc p idx n).map Building.id =
        List.range' idx n := by
  intro n
  induction n with
  | zero => intro p idx; rfl
  | succ n ih =>
    intro p idx
    simp [generateBuildingsFrom, List.range', ih, generateBuilding]

/-- Every building in the generated list is a `generateBuilding` call at some
stream position. -/
lemma mem_generateBuildingsFrom (u : ℕ → ℚ) (wc : ℕ) :
    ∀ (n p idx : ℕ) (b : Building), b ∈ generateBuildingsFrom u wc p idx n →
      ∃ p' idx', b = generateBuilding u p' idx' wc := by
  intro n
  induction n with
  | zero => intro p idx b h; simp [generateBuildingsFrom] at h
  | succ n ih =>
    intro p idx b h
    simp only [generateBuildingsFrom, List.mem_cons] at h
    rcases h with h | h
    · exact ⟨p, idx, h⟩
    · exact ih (p + 2 + 2 * wc) (idx + 1) b h

/-- Height bounds of one generated building, given that every uniform draw
lies in `[0, 1)` (the range of `Math.random()`). -/
lemma generateBuilding_height_bounds (u : ℕ → ℚ)
    (hu : ∀ k, 0 ≤ u k ∧ u k < 1) (p idx wc : ℕ) :
    20 ≤ (generateBuilding u p idx wc).height ∧
      (generateBuilding u p idx wc).height < 80 := by
  have h0 : 0 ≤ u p := (hu p).1
  have h1 : u p < 1 := (hu p).2
  constructor
  · have : 0 ≤ u p * 60 := mul_nonneg h0 (by norm_num)
    simp only [generateBuilding]
    linarith
  · have : u p * 60 < 1 * 60 :=
      mul_lt_mul_of_pos_right h1 (by norm_num)
    simp only [generateBuilding]
    linarith

/-- The section-1 opacity curve is 10-Lipschitz. -/
lemma sceneOpacity1_lipschitz (f g : ℚ) :
    |sceneOpacity1 f - sceneOpacity1 g| ≤ 10 * |f - g| := by
  rw [sceneOpacity1_eq, sceneOpacity1_eq, abs_le]
  rcases abs_cases (f - g) with ⟨he, h0⟩ | ⟨he, h0⟩ <;> rw [he] <;>
    constructor <;> split_ifs <;> linarith

set_option maxHeartbeats 1600000 in
/-- The section-3 opacity curve is 20-Lipschitz. -/
lemma sceneOpacity3_lipschitz (f g : ℚ) :
    |sceneOpacity3 f - sceneOpacity3 g| ≤ 20 * |f - g| := by
  rw [sceneOpacity3_eq, sceneOpacity3_eq, abs_le]
  rcases abs_cases (f - g) with ⟨he, h0⟩ | ⟨he, h0⟩ <;> rw [he] <;>
    constructor <;> split_ifs <;> linarith

/-- The section-4 opacity curve is 10-Lipschitz. -/
lemma sceneOpacity4_lipschitz (f g : ℚ) :
    |sceneOpacity4 f - sceneOpacity4 g| ≤ 10 * |f - g| := by
  rw [sceneOpacity4_eq, sceneOpacity4_eq, abs_le]
  rcases abs_cases (f - g) with ⟨he, h0⟩ | ⟨he, h0⟩ <;> rw [he] <;>
    constructor <;> split_ifs <;> linarith

/-- The section-1 translation curve is 400-Lipschitz. -/
lemma scene1TranslateY_lipschitz (f g : ℚ) :
    |scene1TranslateY f - scene1TranslateY g| ≤ 400 * |f - g| := by
  rw [scene1TranslateY_eq, scene1TranslateY_eq, abs_le]
  rcases abs_cases (f - g) with ⟨he, h0⟩ | ⟨he, h0⟩ <;> rw [he] <;>
    constructor <;> split_ifs <;> linarith

/-- Epsilon-delta continuity from a Lipschitz bound. -/
lemma continuity_of_lipschitz {F : ℚ → ℚ} {L : ℚ} (hL : 0 < L)
    (hlip : ∀ f g : ℚ, |F f - F g| ≤ L * |f - g|) (f ε : ℚ) (hε : 0 < ε) :
    ∃ δ : ℚ, 0 < δ ∧ ∀ g : ℚ, |g - f| < δ → |F g - F f| < ε := by
  refine ⟨ε / L, by positivity, fun g hg => ?_⟩
  have h1 : |F g - F f| ≤ L * |g - f| := hlip g f
  have h2 : L * |g - f| < L * (ε / L) :=
    mul_lt_mul_of_pos_left hg hL
  have h3 : L * (ε / L) = ε := by field_simp
  linarith

/-- C1 (counterexample): the claim says Section3 opacity equals 1 at smoothed
progress 0.5, but the curve `useTransform(smoothProgress, [0.45, 0.55, 0.6,
0.65], [0, 1, 1, 0])` is still mid-ramp at 0.5 and evaluates to 0.5, not 1. -/
theorem C1_counterexample :
    sceneOpacity3 (1/2) = 1/2 ∧ sceneOpacity3 (1/2) ≠ 1 := by
  norm_num [sceneOpacity3_eq]

/-- C1 (amended): at smoothed progress 0 Section1 opacity is 1, Section3
opacity is 0 and Section4 opacity is 0; at 0.5 Section1 opacity is 0,
Section3 opacity is 0.5 (not 1: the fade-in ramp 0.45→0.55 is only halfway)
and Section4 opacity is 0; at 1.0 Section4 opacity is 1. -/
theorem C1_section_examples :
    sceneOpacity1 0 = 1 ∧ sceneOpacity3 0 = 0 ∧ sceneOpacity4 0 = 0 ∧
      sceneOpacity1 (1/2) = 0 ∧ sceneOpacity3 (1/2) = 1/2 ∧
      sceneOpacity4 (1/2) = 0 ∧ sceneOpacity4 1 = 1 := by
  norm_num [sceneOpacity1_eq, sceneOpacity3_eq, sceneOpacity4_eq]

/-- C2: for every smoothed progress `f`, the Section3 pointer-events value is
`'auto'` (interactive) exactly when the Section3 opacity at `f` is strictly
greater than 0.1, and `'none'` (not interactive) exactly otherwise. -/
theorem C2_interactivity_iff_opacity (f : ℚ) :
    (scene3PointerEvents f = autoStr ↔ sceneOpacity3 f > 1/10) ∧
      (scene3PointerEvents f = noneStr ↔ ¬ sceneOpacity3 f > 1/10) := by
  unfold scene3PointerEvents
  split_ifs with h
  · exact ⟨iff_of_true rfl h, iff_of_false (by decide) (not_not_intro h)⟩
  · exact ⟨iff_of_false (by decide) h, iff_of_true rfl h⟩

/-- C3 (counterexample): the claim says the wave position is −120vh for
progress ≥ 0.45, but `waveY` in `components/WaveTransition.tsx` maps the last
breakpoint 0.45 to `"-118vh"`, so at progress 0.45 the position is −118vh,
not −120vh. -/
theorem C3_counterexample : waveY (9/20) = -118 ∧ waveY (9/20) ≠ -120 := by
  norm_num [waveY_eq]

/-- C3 (amended): the wave vertical position is the piecewise-linear function
of progress with breakpoints 0.2, 0.3, 0.35, 0.45 and values 100vh, 0, 0,
−118vh, and for every progress ≥ 0.45 it equals −118vh; the appended
alternative copy of the component in the same file uses −120vh as its last
value and yields −120vh for every progress ≥ 0.45. -/
theorem C3_wave_position :
    (∀ f : ℚ, waveY f =
        piecewiseLinear [(1/5, 100), (3/10, 0), (7/20, 0), (9/20, -118)] f) ∧
      (∀ f : ℚ, 9/20 ≤ f → waveY f = -118) ∧
      (∀ f : ℚ, 9/20 ≤ f → waveYAlt f = -120) := by
  refine ⟨fun f => rfl, fun f hf => ?_, fun f hf => ?_⟩
  · rw [waveY_eq]; split_ifs <;> linarith
  · rw [waveYAlt_eq]; split_ifs <;> linarith

/-- C3 (witness): the amended statement at progress 1. -/
theorem C3_wave_position_witness : waveY 1 = -118 ∧ waveYAlt 1 = -120 :=
  ⟨C3_wave_position.2.1 1 (by norm_num), C3_wave_position.2.2 1 (by norm_num)⟩

/-- C4: on `[0, 1]`, Section1 opacity is non-increasing past progress 0.15
(for `0.15 ≤ f1 ≤ f2` the opacity at `f2` is at most the opacity at `f1`),
and it is exactly 0 for every progress ≥ 0.25. -/
theorem C4_section1_fadeout :
    (∀ f1 f2 : ℚ, 0 ≤ f1 → f2 ≤ 1 → 3/20 ≤ f1 → f1 ≤ f2 →
        sceneOpacity1 f2 ≤ sceneOpacity1 f1) ∧
      (∀ f : ℚ, 1/4 ≤ f → sceneOpacity1 f = 0) := by
  constructor
  · intro f1 f2 h0 h1 h15 hle
    rw [sceneOpacity1_eq, sceneOpacity1_eq]
    split_ifs <;> linarith
  · intro f hf
    rw [sceneOpacity1_eq]
    split_ifs <;> linarith

/-- C4 (witness): monotonicity between 0.15 and 0.25, and vanishing at 0.5. -/
theorem C4_section1_fadeout_witness :
    sceneOpacity1 (1/4) ≤ sceneOpacity1 (3/20) ∧ sceneOpacity1 (1/2) = 0 :=
  ⟨C4_section1_fadeout.1 (3/20) (1/4) (by norm_num) (by norm_num)
      (by norm_num) (by norm_num),
    C4_section1_fadeout.2 (1/2) (by norm_num)⟩

/-- C5: each section curve of `useScrollProgress.ts` (Section1 opacity,
Section3 opacity, Section4 opacity, Section1 translateY) is continuous at
every point — in particular at every interior breakpoint, where left and
right limits therefore agree with the breakpoint value (stated as epsilon-
delta continuity of the exact rational curves); and below its first
breakpoint each curve returns the first defined value while above its last
breakpoint it returns the last defined value. -/
theorem C5_curves_continuous_and_clamped :
    (∀ f ε : ℚ, 0 < ε → ∃ δ : ℚ, 0 < δ ∧
        ∀ g : ℚ, |g - f| < δ → |sceneOpacity1 g - sceneOpacity1 f| < ε) ∧
      (∀ f ε : ℚ, 0 < ε → ∃ δ : ℚ, 0 < δ ∧
        ∀ g : ℚ, |g - f| < δ → |sceneOpacity3 g - sceneOpacity3 f| < ε) ∧
      (∀ f ε : ℚ, 0 < ε → ∃ δ : ℚ, 0 < δ ∧
        ∀ g : ℚ, |g - f| < δ → |sceneOpacity4 g - sceneOpacity4 f| < ε) ∧
      (∀ f ε : ℚ, 0 < ε → ∃ δ : ℚ, 0 < δ ∧
        ∀ g : ℚ, |g - f| < δ → |scene1TranslateY g - scene1TranslateY f| < ε) ∧
      (∀ f : ℚ, f ≤ 0 → sceneOpacity1 f = 1) ∧
      (∀ f : ℚ, 1/4 ≤ f → sceneOpacity1 f = 0) ∧
      (∀ f : ℚ, f ≤ 9/20 → sceneOpacity3 f = 0) ∧
      (∀ f : ℚ, 13/20 ≤ f → sceneOpacity3 f = 0) ∧
      (∀ f : ℚ, f ≤ 13/20 → sceneOpacity4 f = 0) ∧
      (∀ f : ℚ, 3/4 ≤ f → sceneOpacity4 f = 1) ∧
      (∀ f : ℚ, f ≤ 0 → scene1TranslateY f = 0) ∧
      (∀ f : ℚ, 1/4 ≤ f → scene1TranslateY f = -100) := by
  refine ⟨fun f ε hε =>
      continuity_of_lipschitz (by norm_num) sceneOpacity1_lipschitz f ε hε,
    fun f ε hε =>
      continuity_of_lipschitz (by norm_num) sceneOpacity3_lipschitz f ε hε,
    fun f ε hε =>
      continuity_of_lipschitz (by norm_num) sceneOpacity4_lipschitz f ε hε,
    fun f ε hε =>
      continuity_of_lipschitz (by norm_num) scene1TranslateY_lipschitz f ε hε,
    fun f hf => ?_, fun f hf => ?_, fun f hf => ?_, fun f hf => ?_,
    fun f hf => ?_, fun f hf => ?_, fun f hf => ?_, fun f hf => ?_⟩ <;>
    first
      | (rw [sceneOpacity1_eq]; split_ifs <;> linarith)
      | (rw [sceneOpacity3_eq]; split_ifs <;> linarith)
      | (rw [sceneOpacity4_eq]; split_ifs <;> linarith)
      | (rw [scene1TranslateY_eq]; split_ifs <;> linarith)

/-- C5 (witness): a concrete continuity window at the interior breakpoint
0.15 of the Section1 curve, and the clamped values of each curve outside its
breakpoint range. -/
theorem C5_curves_continuous_and_clamped_witness :
    (∃ δ : ℚ, 0 < δ ∧
        ∀ g : ℚ, |g - 3/20| < δ → |sceneOpacity1 g - sceneOpacity1 (3/20)| < 1) ∧
      sceneOpacity1 (-1) = 1 ∧ sceneOpacity1 1 = 0 ∧
      sceneOpacity3 0 = 0 ∧ sceneOpacity3 1 = 0 ∧
      sceneOpacity4 0 = 0 ∧ sceneOpacity4 1 = 1 ∧
      scene1TranslateY (-1) = 0 ∧ scene1TranslateY 1 = -100 := by
  obtain ⟨hc1, _, _, _, h1, h2, h3, h4, h5, h6, h7, h8⟩ :=
    C5_curves_continuous_and_clamped
  exact ⟨hc1 (3/20) 1 (by norm_num), h1 (-1) (by norm_num),
    h2 1 (by norm_num), h3 0 (by norm_num), h4 1 (by norm_num),
    h5 0 (by norm_num), h6 1 (by norm_num), h7 (-1) (by norm_num),
    h8 1 (by norm_num)⟩

/-- C8: the progress-to-visual mappings are total functions on all of `ℚ`
by construction (no failure branch); inputs outside `[0, 1]` land in the
clamped regions and return the first/last breakpoint value, and the segments
with identical consecutive breakpoint values (Section1 opacity on
`[0, 0.15]`, Section3 opacity on `[0.55, 0.6]`, the wave position on
`[0.3, 0.35]`) are constant plateaus. -/
theorem C8_totality_clamping_plateaus :
    (∀ f : ℚ, f ≤ 0 → sceneOpacity1 f = 1) ∧
      (∀ f : ℚ, 1 ≤ f → sceneOpacity1 f = 0) ∧
      (∀ f : ℚ, f ≤ 0 → sceneOpacity3 f = 0) ∧
      (∀ f : ℚ, 1 ≤ f → sceneOpacity3 f = 0) ∧
      (∀ f : ℚ, f ≤ 0 → sceneOpacity4 f = 0) ∧
      (∀ f : ℚ, 1 ≤ f → sceneOpacity4 f = 1) ∧
      (∀ f : ℚ, f ≤ 0 → scene1TranslateY f = 0) ∧
      (∀ f : ℚ, 1 ≤ f → scene1TranslateY f = -100) ∧
      (∀ f : ℚ, 0 ≤ f → f ≤ 3/20 → sceneOpacity1 f = 1) ∧
      (∀ f : ℚ, 11/20 ≤ f → f ≤ 3/5 → sceneOpacity3 f = 1) ∧
      (∀ f : ℚ, 3/10 ≤ f → f ≤ 7/20 → waveY f = 0) := by
  refine ⟨fun f hf => ?_, fun f hf => ?_, fun f hf => ?_, fun f hf => ?_,
    fun f hf => ?_, fun f hf => ?_, fun f hf => ?_, fun f hf => ?_,
    fun f hf hf2 => ?_, fun f hf hf2 => ?_, fun f hf hf2 => ?_⟩ <;>
    first
      | (rw [sceneOpacity1_eq]; split_ifs <;> linarith)
      | (rw [sceneOpacity3_eq]; split_ifs <;> linarith)
      | (rw [sceneOpacity4_eq]; split_ifs <;> linarith)
      | (rw [scene1TranslateY_eq]; split_ifs <;> linarith)
      | (rw [waveY_eq]; split_ifs <;> linarith)

/-- C8 (witness): values of each mapping outside `[0, 1]` and on the three
hold plateaus. -/
theorem C8_totality_clamping_plateaus_witness :
    sceneOpacity1 (-2) = 1 ∧ sceneOpacity1 2 = 0 ∧
      sceneOpacity3 (-2) = 0 ∧ sceneOpacity3 2 = 0 ∧
      sceneOpacity4 (-2) = 0 ∧ sceneOpacity4 2 = 1 ∧
      scene1TranslateY (-2) = 0 ∧ scene1TranslateY 2 = -100 ∧
      sceneOpacity1 (1/10) = 1 ∧ sceneOpacity3 (23/40) = 1 ∧
      waveY (13/40) = 0 := by
  obtain ⟨h1, h2, h3, h4, h5, h6, h7, h8, h9, h10, h11⟩ :=
    C8_totality_clamping_plateaus
  exact ⟨h1 (-2) (by norm_num), h2 2 (by norm_num), h3 (-2) (by norm_num),
    h4 2 (by norm_num), h5 (-2) (by norm_num), h6 2 (by norm_num),
    h7 (-2) (by norm_num), h8 2 (by norm_num),
    h9 (1/10) (by norm_num) (by norm_num),
    h10 (23/40) (by norm_num) (by norm_num),
    h11 (13/40) (by norm_num) (by norm_num)⟩

/-- C6: with `u` the stream of `Math.random()` draws (each in `[0, 1)`),
`generateBuildings` returns exactly `buildingCount` buildings whose ids are
the indices `0 .. buildingCount-1` in order; every building has height in
`[20, 80]` of the form `20 + uniform * 60`, exactly `windowsPerBuilding`
windows, and `hasAntenna` decided by a uniform draw `> 0.6`; every window has
`isYellow` decided by a uniform draw `> 0.8` and its opacity equal to the
next uniform draw. -/
theorem C6_generateBuildings_contract (u : ℕ → ℚ)
    (hu : ∀ k, 0 ≤ u k ∧ u k < 1) (buildingCount windowsPerBuilding : ℕ) :
    (generateBuildings u buildingCount windowsPerBuilding).length =
        buildingCount ∧
      (generateBuildings u buildingCount windowsPerBuilding).map Building.id =
        List.range buildingCount ∧
      ∀ b ∈ generateBuildings u buildingCount windowsPerBuilding,
        20 ≤ b.height ∧ b.height ≤ 80 ∧
          (∃ k, b.height = 20 + u k * 60) ∧
          b.windows.length = windowsPerBuilding ∧
          (∃ k, b.hasAntenna = decide (u k > 3/5)) ∧
          ∀ w ∈ b.windows,
            (∃ k, w.isYellow = decide (u k > 4/5) ∧ w.opacity = u (k + 1)) := by
  refine ⟨generateBuildingsFrom_length u windowsPerBuilding buildingCount 0 0,
    ?_, ?_⟩
  · rw [List.range_eq_range']
    exact generateBuildingsFrom_map_id u windowsPerBuilding buildingCount 0 0
  · intro b hb
    obtain ⟨p', idx', rfl⟩ :=
      mem_generateBuildingsFrom u windowsPerBuilding buildingCount 0 0 b hb
    obtain ⟨hlo, hhi⟩ :=
      generateBuilding_height_bounds u hu p' idx' windowsPerBuilding
    refine ⟨hlo, le_of_lt hhi, ⟨p', rfl⟩, ?_, ⟨p' + 1 + 2 * windowsPerBuilding,
      rfl⟩, ?_⟩
    · exact generateWindows_length u (p' + 1) windowsPerBuilding
    · intro w hw
      exact mem_generateWindowsFrom_draws u windowsPerBuilding (p' + 1) 0 w hw

/-- C6 (witness): the contract instantiated at the constant stream 1/2 with
2 buildings of 1 window. -/
theorem C6_generateBuildings_contract_witness :
    (generateBuildings (fun _ => 1/2) 2 1).length = 2 ∧
      (generateBuildings (fun _ => 1/2) 2 1).map Building.id = List.range 2 :=
  ⟨(C6_generateBuildings_contract (fun _ => 1/2)
      (fun k => by norm_num) 2 1).1,
    (C6_generateBuildings_contract (fun _ => 1/2)
      (fun k => by norm_num) 2 1).2.1⟩

/-- C10: because every `Math.random()` draw lies in `[0, 1)`, the generator
never attains the upper endpoints of its ranges: every generated window has
opacity in `[0, 1)` (never exactly 1), and every generated building has
height in `[20, 80)` (never exactly 80). -/
theorem C10_open_upper_endpoints (u : ℕ → ℚ)
    (hu : ∀ k, 0 ≤ u k ∧ u k < 1) (buildingCount windowsPerBuilding : ℕ) :
    ∀ b ∈ generateBuildings u buildingCount windowsPerBuilding,
      (20 ≤ b.height ∧ b.height < 80) ∧
        ∀ w ∈ b.windows, 0 ≤ w.opacity ∧ w.opacity < 1 := by
  intro b hb
  obtain ⟨p', idx', rfl⟩ :=
    mem_generateBuildingsFrom u windowsPerBuilding buildingCount 0 0 b hb
  refine ⟨generateBuilding_height_bounds u hu p' idx' windowsPerBuilding,
    fun w hw => ?_⟩
  obtain ⟨k, -, hop⟩ :=
    mem_generateWindowsFrom_draws u windowsPerBuilding (p' + 1) 0 w hw
  rw [hop]
  exact hu (k + 1)

/-- C10 (witness): bounds of the single building generated from the constant
stream 1/2. -/
theorem C10_open_upper_endpoints_witness :
    20 ≤ (generateBuilding (fun _ => 1/2) 0 0 1).height ∧
      (generateBuilding (fun _ => 1/2) 0 0 1).height < 80 :=
  (C10_open_upper_endpoints (fun _ => 1/2) (fun k => by norm_num) 1 1
      (generateBuilding (fun _ => 1/2) 0 0 1)
      (List.mem_singleton.mpr rfl)).1

/-- C7: the initial theme resolution of `useTheme.ts` prefers the persisted
`localStorage` value when it is `'light'` or `'dark'`, then the system
`prefers-color-scheme: dark` signal, then defaults to `'light'`; and the
theme effect writes the current theme back to `localStorage` under the key
`'theme'` on every change. -/
theorem C7_theme_resolution_and_persistence :
    (∀ prefersDark : Bool,
        getInitialTheme true (some lightStr) prefersDark = Theme.light) ∧
      (∀ prefersDark : Bool,
        getInitialTheme true (some darkStr) prefersDark = Theme.dark) ∧
      (∀ saved : Option String, saved ≠ some lightStr → saved ≠ some darkStr →
        getInitialTheme true saved true = Theme.dark) ∧
      (∀ saved : Option String, saved ≠ some lightStr → saved ≠ some darkStr →
        getInitialTheme true saved false = Theme.light) ∧
      (∀ (t : Theme) (st : Storage),
        getItem themeKey (themeEffect t st) = some (themeToString t)) := by
  refine ⟨fun prefersDark => ?_, fun prefersDark => ?_,
    fun saved h1 h2 => ?_, fun saved h1 h2 => ?_, fun t st => ?_⟩
  · cases prefersDark <;> decide
  · cases prefersDark <;> decide
  · simp [getInitialTheme, h1, h2]
  · simp [getInitialTheme, h1, h2]
  · simp [getItem, themeEffect, setItem]

/-- C7 (witness): with nothing persisted, the system signal decides; the
effect for the dark theme persists the string `'dark'`. -/
theorem C7_theme_resolution_and_persistence_witness :
    getInitialTheme true none true = Theme.dark ∧
      getInitialTheme true none false = Theme.light ∧
      getItem themeKey (themeEffect Theme.dark (fun _ => none)) =
        some darkStr := by
  obtain ⟨-, -, h3, h4, h5⟩ := C7_theme_resolution_and_persistence
  exact ⟨h3 none (by simp) (by simp), h4 none (by simp) (by simp),
    h5 Theme.dark (fun _ => none)⟩

/-- C9: the theme state is exactly one of `'light'` or `'dark'`, and
`toggleTheme` maps `'light'` to `'dark'`, `'dark'` to `'light'`, and is an
involution. -/
theorem C9_toggle_involution :
    (∀ t : Theme, t = Theme.light ∨ t = Theme.dark) ∧
      (∀ t : Theme, toggleTheme (toggleTheme t) = t) ∧
      toggleTheme Theme.light = Theme.dark ∧
      toggleTheme Theme.dark = Theme.light := by
  refine ⟨fun t => ?_, fun t => ?_, by decide, by decide⟩ <;>
    cases t <;> simp [toggleTheme]

end SiteCurriculo
